import Mathlib

/-!
Verification of the ModalDB core (src/ModalDB/ModalDicts.py and
src/ModalDB/ChildContainer.py) against its specification.

Modelling conventions, chosen to mirror the Python source faithfully:

- Python strings are modelled as Lean `String`, with length, slicing,
  concatenation and `startswith` defined on the underlying character list
  (`String.data`), matching Python's code-point semantics.
- Python dicts are modelled as association lists `List (String × α)` with
  first-match lookup (`lookupA`), in-place update (`setA`, which appends when
  the key is absent, as dict assignment inserts) and single-entry removal
  (`eraseA`, modelling `del d[key]`).
- Python `None` used as an item value is `Option.none`; a raised exception is
  an explicit error value.  Where the source mutates state before raising
  (e.g. `DiskDict.del_item`), the operation returns the mutated state together
  with the error, since the Python exception propagates past the mutation.
- Aliasing: `ModalDict.__init__` stores `self.metadata[k] = mongo_doc['items'][k]`
  (the inner dicts are shared, not copied), and `ChildContainer.__init__` stores
  `self.childtype_dicts = mongo_doc['children']` (shared outright).  Writes
  through these names mutate the backing document.  The embedding makes this
  explicit by keeping the shared state in the `MongoDoc` value and threading
  the document through every operation that writes through an alias; the
  document returned by an operation is the backing document as it stands after
  the call.
-/

/-! ## Association-list model of Python dicts -/

/-- First-match lookup in an association list: `d[k]` returning `none` where
Python raises `KeyError`. -/
def lookupA {α : Type} : List (String × α) → String → Option α
  | [], _ => none
  | (k', v) :: t, k => if k' = k then some v else lookupA t k

/-- Dict assignment `d[k] = v`: replaces the first binding of `k`, appends a
new binding when `k` is absent. -/
def setA {α : Type} : List (String × α) → String → α → List (String × α)
  | [], k, v => [(k, v)]
  | (k', v') :: t, k, v => if k' = k then (k, v) :: t else (k', v') :: setA t k v

/-- Dict deletion `del d[k]`: removes the first binding of `k` (the caller
checks presence; on an absent key Python raises `KeyError`). -/
def eraseA {α : Type} : List (String × α) → String → List (String × α)
  | [], _ => []
  | (k', v') :: t, k => if k' = k then t else (k', v') :: eraseA t k

theorem lookupA_setA {α : Type} (l : List (String × α)) (k j : String) (v : α) :
    lookupA (setA l k v) j = if j = k then some v else lookupA l j := by
  induction l with
  | nil =>
    by_cases h : j = k
    · subst h; simp [setA, lookupA]
    · have h' : ¬ k = j := fun he => h he.symm
      simp [setA, lookupA, h, h']
  | cons hd tl ih =>
    obtain ⟨k', v'⟩ := hd
    by_cases hk : k' = k
    · subst hk
      by_cases hj : j = k'
      · subst hj; simp [setA, lookupA]
      · have hj' : ¬ k' = j := fun he => hj he.symm
        simp [setA, lookupA, hj, hj']
    · by_cases hj : k' = j
      · have hjk : ¬ j = k := fun he => hk (hj.trans he)
        simp [setA, lookupA, hk, hj, hjk]
      · simp [setA, lookupA, hk, hj, ih]

theorem lookupA_eq_none_of_not_mem {α : Type} (l : List (String × α)) (k : String)
    (h : ¬ k ∈ l.map Prod.fst) : lookupA l k = none := by
  induction l with
  | nil => rfl
  | cons hd tl ih =>
    obtain ⟨k', v'⟩ := hd
    simp only [List.map_cons, List.mem_cons] at h
    push_neg at h
    have : ¬ k' = k := fun he => h.1 (by simp [he])
    simp [lookupA, this, ih h.2]

theorem lookupA_eraseA_self {α : Type} (l : List (String × α)) (k : String)
    (h : (l.map Prod.fst).Nodup) : lookupA (eraseA l k) k = none := by
  induction l with
  | nil => rfl
  | cons hd tl ih =>
    obtain ⟨k', v'⟩ := hd
    simp only [List.map_cons, List.nodup_cons] at h
    by_cases hk : k' = k
    · subst hk
      simpa [eraseA] using lookupA_eq_none_of_not_mem tl k' h.1
    · simp [eraseA, lookupA, hk, ih h.2]

/-! ## Python string primitives (code-point semantics) -/

/-- Python string concatenation `a + b`. -/
def strCat (a b : String) : String := ⟨a.data ++ b.data⟩

/-- Python `s.startswith(pre)`. -/
def startswith (s pre : String) : Bool := pre.data.isPrefixOf s.data

/-- Python slice `s[n:]` (by code points). -/
def strDrop (s : String) (n : Nat) : String := ⟨s.data.drop n⟩

/-- Python `len(s)` (by code points). -/
def strLen (s : String) : Nat := s.data.length

theorem isPrefixOf_append_chars (p s : List Char) : p.isPrefixOf (p ++ s) = true := by
  induction p with
  | nil => simp [List.isPrefixOf]
  | cons a t ih => simp [List.isPrefixOf, ih]

theorem startswith_strCat (p s : String) : startswith (strCat p s) p = true := by
  simp [startswith, strCat, isPrefixOf_append_chars]

/-! ## ChildContainer (src/ModalDB/ChildContainer.py)

`ChildContainer.__init__` keeps `parent_id` and `schema['contains']` (modelled
as the list of child-type names, since the Python class objects are used only
through `__name__` and list membership) and sets
`self.childtype_dicts = mongo_doc['children']` — a live reference, not a copy,
so `add` writes into the backing document.  The per-type tables therefore live
in the `MongoDoc` value, and `get`/`add` take the current document. -/

/-- The class attribute `ChildContainer.id_joiner = '/'`. -/
def id_joiner : String := "/"

structure ChildContainer where
  parent_id : String
  childtypes : List String
deriving DecidableEq

/-- The instance attribute `self.parent_prefix = parent_id + self.id_joiner`
set in `ChildContainer.__init__`. -/
def ChildContainer.parent_pre (c : ChildContainer) : String :=
  strCat c.parent_id id_joiner

/-- `ChildContainer.is_full_id`: `_id.startswith(self.parent_prefix)`. -/
def ChildContainer.is_full_id (c : ChildContainer) (i : String) : Bool :=
  startswith i c.parent_pre

/-- `ChildContainer.is_raw_id`: `not self.is_full_id(_id)`. -/
def ChildContainer.is_raw_id (c : ChildContainer) (i : String) : Bool :=
  ! c.is_full_id i

/-- `ChildContainer.to_raw_id`: strip the parent prefix when present (the
leading `str(_id)` is the identity on strings). -/
def ChildContainer.to_raw_id (c : ChildContainer) (i : String) : String :=
  if c.is_full_id i then strDrop i (strLen c.parent_pre) else i

/-- `ChildContainer.to_full_id`: prepend the parent prefix when absent. -/
def ChildContainer.to_full_id (c : ChildContainer) (i : String) : String :=
  if c.is_raw_id i then strCat c.parent_pre i else i

/-- Errors raised by `ChildContainer`; constructors follow the error taxonomy
of the spec and the distinct `raise` sites of the source. -/
inductive CErr
  | no_childtypes
  | need_specify
  | ambiguous
  | invalid_childtype
  | invalid_args
  | key_error (k : String)
deriving DecidableEq

/-- `ChildContainer.is_valid_childtype`: `datatype in self.childtypes`. -/
def ChildContainer.is_valid_childtype (c : ChildContainer) (t : String) : Bool :=
  decide (t ∈ c.childtypes)

/-- `ChildContainer.get_only_childtype`: raises unless exactly one child type
is declared, else returns `self.childtypes[0]`. -/
def ChildContainer.get_only_childtype (c : ChildContainer) : Except CErr String :=
  if c.childtypes.length = 1 then .ok (c.childtypes.headD "") else .error .need_specify

/-- `ChildContainer.sanitize(*args)`: argument-count-directed resolution to a
`(childtype, raw_id)` pair. -/
def ChildContainer.sanitize (c : ChildContainer) (args : List String) :
    Except CErr (String × String) :=
  if c.childtypes.length = 0 then .error .no_childtypes
  else if args.length = 1 then
    if ¬ c.childtypes.length = 1 then .error .ambiguous
    else
      match c.get_only_childtype with
      | .error e => .error e
      | .ok t => .ok (t, c.to_raw_id (args.getD 0 ""))
  else if args.length = 2 then
    if ! c.is_valid_childtype (args.getD 0 "") then .error .invalid_childtype
    else .ok (args.getD 0 "", c.to_raw_id (args.getD 1 ""))
  else .error .invalid_args

/-- Per-type child address tables: the value of `mongo_doc['children']`. -/
def ChildTables : Type := List (String × List (String × String))

/-- Metadata dict of one item, `mongo_doc['items'][k]`: its `data` entry (used
by memory-mode items) and its `present` flag (written by
`update_item_metadata` and by `__setitem__`/`__delitem__`). -/
structure ItemMeta (V : Type) where
  data : Option V
  present : Option Bool
deriving DecidableEq

/-- The backing document snapshot handed to the constructors. -/
structure MongoDoc (V : Type) where
  root : String
  items : List (String × ItemMeta V)
  children : List (String × List (String × String))
deriving DecidableEq

/-- `ChildContainer.get_childtype_dict`: `self.childtype_dicts[datatype.__name__]`,
where `self.childtype_dicts` is `mongo_doc['children']` itself. -/
def ChildContainer.get_childtype_dict {V : Type} (c : ChildContainer) (doc : MongoDoc V)
    (t : String) : Option (List (String × String)) :=
  lookupA doc.children t

/-- `ChildContainer.get(*args)`: resolve, then look the raw id up in the
type's table (`KeyError` when absent). -/
def ChildContainer.get {V : Type} (c : ChildContainer) (doc : MongoDoc V)
    (args : List String) : Except CErr (String × String) :=
  match c.sanitize args with
  | .error e => .error e
  | .ok (t, raw) =>
    match c.get_childtype_dict doc t with
    | none => .error (.key_error t)
    | some tbl =>
      match lookupA tbl raw with
      | none => .error (.key_error raw)
      | some full => .ok (t, full)

/-- `ChildContainer.add(*args)`: resolve, compute the full id, and assign
`childtype_dict[raw_id] = full_id`.  Since `childtype_dict` is an inner dict of
`mongo_doc['children']`, the write lands in the backing document; the returned
`MongoDoc` is the document after the call. -/
def ChildContainer.add {V : Type} (c : ChildContainer) (doc : MongoDoc V)
    (args : List String) : Except CErr (MongoDoc V) :=
  match c.sanitize args with
  | .error e => .error e
  | .ok (t, raw) =>
    let full := c.to_full_id raw
    match c.get_childtype_dict doc t with
    | none => .error (.key_error t)
    | some tbl =>
      .ok { doc with children := setA doc.children t (setA tbl raw full) }

/-- `ChildContainer.__init__` (the copied-in part: `parent_id` and
`schema['contains']`; `childtype_dicts` stays in the document, see above).
The constructor's assertion that every declared child type has a table in
`mongo_doc['children']` is the well-formedness hypothesis used by theorems. -/
def ChildContainer.init (parent_id : String) (contains : List String) : ChildContainer :=
  { parent_id := parent_id, childtypes := contains }

/-! ## ModalDict metadata updates (src/ModalDB/ModalDicts.py)

`ModalDict.__init__` builds `self.metadata = {k: mongo_doc['items'][k] for k
in self.keys}`: the outer dict is fresh but each `metadata[k]` is the inner
dict of the document itself, so `self.metadata[k]['present'] = b` writes into
`mongo_doc['items'][k]`.  The embedding therefore keeps the per-item metadata
in the `MongoDoc` and threads the document through every operation that
performs such a write (`__setitem__`, `__delitem__`, `update_item_metadata`). -/

/-- The aliased write `self.metadata[k]['present'] = b`, landing in
`mongo_doc['items'][k]['present']`.  When the key has no metadata dict the
Python constructor would already have raised, so the missing case is inert. -/
def set_present {V : Type} (items : List (String × ItemMeta V)) (k : String) (b : Bool) :
    List (String × ItemMeta V) :=
  match lookupA items k with
  | some mi => setA items k { mi with present := some b }
  | none => items

/-- The loop of `ModalDict.update_item_metadata`: for every declared key,
write the recomputed presence into the (aliased) metadata dict.  `pres` is the
subclass `item_present` hook, which reads state unaffected by these writes. -/
def upd_meta {V : Type} (ks : List String) (pres : String → Bool)
    (items : List (String × ItemMeta V)) : List (String × ItemMeta V) :=
  ks.foldl (fun it k => set_present it k (pres k)) items

/-- Reading `self.metadata[k]['present']` as a boolean test, as
`ModalDict.present_items` does after recomputation. -/
def present_flag {V : Type} (items : List (String × ItemMeta V)) (k : String) : Bool :=
  match lookupA items k with
  | some mi => decide (mi.present = some true)
  | none => false

/-! ## MemoryDict -/

/-- Errors raised by the dict classes: `detect_keyerror`'s "No such item" on an
undeclared key, a raw `KeyError` from an inner dict access, and a filesystem
error propagated from `os.remove`. -/
inductive DErr
  | no_such_item (k : String)
  | key_error (k : String)
  | fs_error
deriving DecidableEq

/-- State owned by a `MemoryDict`: the declared key set for mode `'memory'`
and the value dict `self.data` (a fresh dict built in `MemoryDict.__init__`,
so writes to it do not reach the document). -/
structure MemoryDict (V : Type) where
  keys : List String
  data : List (String × Option V)
deriving DecidableEq

/-- `MemoryDict.item_present`: `not self[key] is None` (callers pass declared
keys; `detect_keyerror` cannot fire there). -/
def MemoryDict.item_present {V : Type} (m : MemoryDict V) (k : String) : Bool :=
  ((lookupA m.data k).getD none).isSome

/-- `ModalDict.update_item_metadata` specialised to `MemoryDict`: returns the
backing document after the aliased `present` writes. -/
def MemoryDict.update_item_metadata {V : Type} (m : MemoryDict V) (doc : MongoDoc V) :
    MongoDoc V :=
  { doc with items := upd_meta m.keys (fun k => m.item_present k) doc.items }

/-- `ModalDict.present_items` for a `MemoryDict`: recompute all presence flags
(mutating the document through the alias), then filter the declared keys by
the recomputed flag.  Returns the set (as a list in key order) and the
document after the writes. -/
def MemoryDict.present_items {V : Type} (m : MemoryDict V) (doc : MongoDoc V) :
    List String × MongoDoc V :=
  let doc2 := m.update_item_metadata doc
  (m.keys.filter (fun k => present_flag doc2.items k), doc2)

/-- `ModalDict.absent_items` for a `MemoryDict`:
`self.keys.difference(self.present_items())`. -/
def MemoryDict.absent_items {V : Type} (m : MemoryDict V) (doc : MongoDoc V) :
    List String × MongoDoc V :=
  let pr := m.present_items doc
  (m.keys.filter (fun k => decide (¬ k ∈ pr.1)), pr.2)

/-- `ModalDict.__getitem__` ∘ `MemoryDict.get_item`: `detect_keyerror`, then
`self.data[key]` (the inner repeated `detect_keyerror` of `get_item` is
subsumed by the first). -/
def MemoryDict.get {V : Type} (m : MemoryDict V) (k : String) : Except DErr (Option V) :=
  if k ∈ m.keys then
    match lookupA m.data k with
    | some v => .ok v
    | none => .error (.key_error k)
  else .error (.no_such_item k)

/-- `ModalDict.__setitem__` ∘ `MemoryDict.set_item`: `detect_keyerror`, the
aliased write `self.metadata[key]['present'] = True`, then
`self.data[key] = value`.  Returns the new store and the document after the
aliased write. -/
def MemoryDict.set {V : Type} (m : MemoryDict V) (doc : MongoDoc V) (k : String)
    (v : Option V) : Except DErr (MemoryDict V × MongoDoc V) :=
  if k ∈ m.keys then
    .ok ({ m with data := setA m.data k v },
         { doc with items := set_present doc.items k true })
  else .error (.no_such_item k)

/-- `ModalDict.__delitem__` ∘ `MemoryDict.del_item`: `detect_keyerror`, the
aliased write `self.metadata[key]['present'] = False`, then
`self.data[key] = None`. -/
def MemoryDict.delete {V : Type} (m : MemoryDict V) (doc : MongoDoc V) (k : String) :
    Except DErr (MemoryDict V × MongoDoc V) :=
  if k ∈ m.keys then
    .ok ({ m with data := setA m.data k none },
         { doc with items := set_present doc.items k false })
  else .error (.no_such_item k)

/-- Per-key schema configuration consumed by the constructors (`mode`,
`filename`, `load_func`; the save path of `DiskDict` is not exercised by the
claims under verification and is left out of the embedding). -/
structure ItemConfig (V : Type) where
  mode : String
  filename : String
  load_func : String → Option V

/-- The key set built by `ModalDict.__init__`:
`set(k for k,v in datatype_schema.items() if v['mode'] == self.mode)`. -/
def mode_keys {V : Type} (schema : List (String × ItemConfig V)) (mode : String) :
    List String :=
  (schema.filter (fun kv => decide (kv.2.mode = mode))).map (fun kv => kv.1)

/-- `MemoryDict.__init__`: base construction, then
`self.data = {k: mongo_doc['items'][k]['data'] for k in self.keys}` and
`self.update_item_metadata()`.  Returns the store and the document after the
constructor's aliased `present` writes. -/
def MemoryDict.init {V : Type} (doc : MongoDoc V) (schema : List (String × ItemConfig V)) :
    MemoryDict V × MongoDoc V :=
  let ks := mode_keys schema "memory"
  let m : MemoryDict V :=
    { keys := ks
      data := ks.map (fun k => (k, ((lookupA doc.items k).getD ⟨none, none⟩).data)) }
  (m, m.update_item_metadata doc)

/-! ## DiskDict -/

/-- The filesystem visible to a `DiskDict`: which paths currently exist. -/
def Fs : Type := String → Bool

/-- `os.path.exists`. -/
def os_path_exists (fs : Fs) (p : String) : Bool := fs p

/-- `os.remove`: deletes the file, or raises a filesystem error when the path
does not exist. -/
def os_remove (fs : Fs) (p : String) : Except DErr Fs :=
  if os_path_exists fs p = true then
    .ok (fun q => if q = p then false else fs q)
  else .error .fs_error

/-- `os.path.join(root, filename)` as used by `DiskDict.__init__`. -/
def os_path_join (a b : String) : String := strCat (strCat a "/") b

/-- State owned by a `DiskDict`: declared keys for mode `'disk'`, the per-key
deserialize functions and paths, and the in-process cache `self.data`.  The
cache is a dict from which `del_item` removes the entry outright before
re-inserting `None`, so a key can be genuinely absent. -/
structure DiskDict (V : Type) where
  keys : List String
  load_funcs : List (String × (String → Option V))
  paths : List (String × String)
  data : List (String × Option V)

/-- `self.paths[key]` (total with a junk default; every declared key has a
path after construction). -/
def DiskDict.path_of {V : Type} (d : DiskDict V) (k : String) : String :=
  (lookupA d.paths k).getD ""

/-- `DiskDict.item_present`: `os.path.exists(self.paths[key])`, recomputed on
every call. -/
def DiskDict.item_present {V : Type} (d : DiskDict V) (fs : Fs) (k : String) : Bool :=
  os_path_exists fs (d.path_of k)

/-- `ModalDict.update_item_metadata` specialised to `DiskDict`. -/
def DiskDict.update_item_metadata {V : Type} (d : DiskDict V) (doc : MongoDoc V)
    (fs : Fs) : MongoDoc V :=
  { doc with items := upd_meta d.keys (fun k => d.item_present fs k) doc.items }

/-- `DiskDict.load_item`: `self.data[key] = self.load_funcs[key](self.paths[key])`. -/
def DiskDict.load_item {V : Type} (d : DiskDict V) (k : String) : DiskDict V :=
  { d with
    data := setA d.data k (((lookupA d.load_funcs k).getD (fun _ => none)) (d.path_of k)) }

/-- `ModalDict.__getitem__` ∘ `DiskDict.get_item`: `detect_keyerror`, then
`if self.data[key] is None and self.item_present(key): self.load_item(key)`,
then `return self.data[key]`.  The first cache access raises `KeyError` when
the entry was removed by a failed delete. -/
def DiskDict.get {V : Type} (d : DiskDict V) (fs : Fs) (k : String) :
    Except DErr (Option V × DiskDict V) :=
  if k ∈ d.keys then
    match lookupA d.data k with
    | none => .error (.key_error k)
    | some cached =>
      if cached.isNone = true ∧ d.item_present fs k = true then
        let d2 := d.load_item k
        .ok ((lookupA d2.data k).getD none, d2)
      else .ok (cached, d)
  else .error (.no_such_item k)

/-- Outcome of `ModalDict.__delitem__` on a `DiskDict`: the optional error
together with the store, document and filesystem as they stand when the call
returns or the exception propagates. -/
structure DiskDelResult (V : Type) where
  err : Option DErr
  dict : DiskDict V
  doc : MongoDoc V
  fs : Fs

/-- `ModalDict.__delitem__` ∘ `DiskDict.del_item`: `detect_keyerror`, the
aliased write `self.metadata[key]['present'] = False`, then
`del self.data[key]`, `os.remove(self.paths[key])`, `self.data[key] = None`.
When `os.remove` raises, the cache entry has already been removed and is not
restored. -/
def DiskDict.delete {V : Type} (d : DiskDict V) (doc : MongoDoc V) (fs : Fs)
    (k : String) : DiskDelResult V :=
  if k ∈ d.keys then
    let doc2 : MongoDoc V := { doc with items := set_present doc.items k false }
    match lookupA d.data k with
    | none => { err := some (.key_error k), dict := d, doc := doc2, fs := fs }
    | some _ =>
      let d2 : DiskDict V := { d with data := eraseA d.data k }
      match os_remove fs (d.path_of k) with
      | .error e => { err := some e, dict := d2, doc := doc2, fs := fs }
      | .ok fs2 =>
        { err := none, dict := { d2 with data := setA d2.data k none },
          doc := doc2, fs := fs2 }
  else { err := some (.no_such_item k), dict := d, doc := doc, fs := fs }

/-- `DiskDict.__init__`: base construction, then per-key `load_funcs` and
`paths` from the schema, a fresh all-`None` cache, and
`self.update_item_metadata()`. -/
def DiskDict.init {V : Type} (doc : MongoDoc V) (schema : List (String × ItemConfig V))
    (fs : Fs) : DiskDict V × MongoDoc V :=
  let ks := mode_keys schema "disk"
  let cfg : String → ItemConfig V :=
    fun k => (lookupA schema k).getD { mode := "disk", filename := "", load_func := fun _ => none }
  let d : DiskDict V :=
    { keys := ks
      load_funcs := ks.map (fun k => (k, (cfg k).load_func))
      paths := ks.map (fun k => (k, os_path_join doc.root (cfg k).filename))
      data := ks.map (fun k => (k, none)) }
  (d, d.update_item_metadata doc fs)

/-! ## Supporting lemmas about metadata recomputation -/

theorem lookupA_set_present {V : Type} (items : List (String × ItemMeta V))
    (k j : String) (b : Bool) :
    lookupA (set_present items k b) j =
      if j = k then (lookupA items k).map (fun mi => { mi with present := some b })
      else lookupA items j := by
  unfold set_present
  rcases hmi : lookupA items k with _ | mi
  · by_cases hjk : j = k
    · subst hjk; simp [hmi]
    · simp [hjk]
  · rw [lookupA_setA]
    by_cases hjk : j = k
    · subst hjk; simp [hmi]
    · simp [hjk]

theorem lookupA_upd_meta {V : Type} (ks : List String) (pres : String → Bool)
    (items : List (String × ItemMeta V)) (j : String) :
    lookupA (upd_meta ks pres items) j =
      if j ∈ ks then (lookupA items j).map (fun mi => { mi with present := some (pres j) })
      else lookupA items j := by
  induction ks generalizing items with
  | nil => simp [upd_meta]
  | cons a t ih =>
    have step : upd_meta (a :: t) pres items = upd_meta t pres (set_present items a (pres a)) := rfl
    rw [step, ih]
    by_cases hjt : j ∈ t
    · rw [if_pos hjt, if_pos (List.mem_cons_of_mem a hjt), lookupA_set_present]
      by_cases hja : j = a
      · subst hja
        rw [if_pos rfl]
        cases lookupA items j <;> simp
      · rw [if_neg hja]
    · rw [if_neg hjt, lookupA_set_present]
      by_cases hja : j = a
      · subst hja
        rw [if_pos rfl, if_pos (List.mem_cons_self j t)]
      · rw [if_neg hja, if_neg (by simp [List.mem_cons, hja, hjt])]

theorem present_items_fst {V : Type} (m : MemoryDict V) (doc : MongoDoc V) :
    (m.present_items doc).1 =
      m.keys.filter (fun k => (lookupA doc.items k).isSome && m.item_present k) := by
  unfold MemoryDict.present_items
  apply List.filter_congr
  intro k hk
  show present_flag (m.update_item_metadata doc).items k = _
  unfold MemoryDict.update_item_metadata present_flag
  simp only
  rw [lookupA_upd_meta, if_pos hk]
  cases lookupA doc.items k with
  | none => simp
  | some mi =>
    simp only [Option.map_some, Option.isSome_some, Bool.true_and]
    cases m.item_present k <;> simp

/-! ## Concrete instances used by counterexamples and witnesses -/

/-- A parent instance with id `"video_1"` and the single child type `Frame`. -/
def video_cc : ChildContainer := { parent_id := "video_1", childtypes := ["Frame"] }

/-- A parent instance with two declared child types. -/
def pair_cc : ChildContainer :=
  { parent_id := "video_1", childtypes := ["Frame", "Annotation"] }

/-- A backing document with an empty `Frame` address table. -/
def video_doc : MongoDoc Nat :=
  { root := "r", items := [], children := [("Frame", [])] }

/-! ## Claim C2 -/

/-- Claim C2, counterexample: `to_raw_id` is not idempotent on every string.
With parent id `"video_1"`, the input `"video_1/video_1/1"` strips to
`"video_1/1"`, which still carries the parent prefix, so a second application
strips again and yields `"1"`. -/
theorem C2_counterexample :
    ¬ video_cc.to_raw_id (video_cc.to_raw_id "video_1/video_1/1")
        = video_cc.to_raw_id "video_1/video_1/1" := by
  decide

theorem isPrefixOf_length_le (p l : List Char) (h : p.isPrefixOf l = true) :
    p.length ≤ l.length := by
  induction p generalizing l with
  | nil => simp
  | cons a t ih =>
    cases l with
    | nil => simp [List.isPrefixOf] at h
    | cons b bs =>
      simp only [List.isPrefixOf, Bool.and_eq_true] at h
      have := ih bs h.2
      simp only [List.length_cons]
      omega

/-- Stripping a genuinely carried prefix strictly shortens the string, so
`to_raw_id` moves every still-prefixed input: the source of the
non-idempotence of `to_raw_id` on doubly-prefixed ids. -/
theorem to_raw_id_ne_of_full (c : ChildContainer) (x : String)
    (h : c.is_full_id x = true) : ¬ c.to_raw_id x = x := by
  intro heq
  have hdrop : c.to_raw_id x = strDrop x (strLen c.parent_pre) := by
    unfold ChildContainer.to_raw_id
    rw [if_pos h]
  have heq2 : strDrop x (strLen c.parent_pre) = x := by
    rw [← hdrop]
    exact heq
  have hlen : x.data.length - strLen c.parent_pre = x.data.length := by
    have h3 := congrArg (fun t : String => t.data.length) heq2
    simpa [strDrop, List.length_drop] using h3
  have hpre : (c.parent_pre).data.isPrefixOf x.data = true := h
  have hle : (c.parent_pre).data.length ≤ x.data.length :=
    isPrefixOf_length_le _ _ hpre
  have hle2 : strLen c.parent_pre ≤ x.data.length := hle
  have hpos : 1 ≤ strLen c.parent_pre := by
    show 1 ≤ (c.parent_id.data ++ ("/" : String).data).length
    rw [List.length_append]
    have hj : ("/" : String).data.length = 1 := rfl
    omega
  omega

/-- Claim C2 (amended): both normalizers are total functions of arbitrary
strings; `to_full_id` is idempotent on every string, and `to_raw_id` is
idempotent on exactly those strings whose stripped form does not again begin
with `parent_id + "/"` (a doubly-prefixed id loses one prefix per
application, so it is moved by every application while the prefix remains). -/
theorem C2_normalizer_idempotence (c : ChildContainer) (s : String) :
    c.to_full_id (c.to_full_id s) = c.to_full_id s
    ∧ (c.to_raw_id (c.to_raw_id s) = c.to_raw_id s
        ↔ c.is_full_id (c.to_raw_id s) = false) := by
  constructor
  · by_cases h : c.is_full_id s = true
    · have h1 : c.to_full_id s = s := by
        unfold ChildContainer.to_full_id ChildContainer.is_raw_id
        simp [h]
      rw [h1]
      exact h1
    · have hb : c.is_full_id s = false := by
        cases hx : c.is_full_id s
        · rfl
        · exact absurd hx h
      have h1 : c.to_full_id s = strCat c.parent_pre s := by
        unfold ChildContainer.to_full_id ChildContainer.is_raw_id
        simp [hb]
      have h2 : c.is_full_id (strCat c.parent_pre s) = true := startswith_strCat _ _
      rw [h1]
      unfold ChildContainer.to_full_id ChildContainer.is_raw_id
      simp [h2]
  · constructor
    · intro hidem
      by_cases hfull : c.is_full_id (c.to_raw_id s) = true
      · exact absurd hidem (to_raw_id_ne_of_full c (c.to_raw_id s) hfull)
      · cases hx : c.is_full_id (c.to_raw_id s)
        · rfl
        · exact absurd hx hfull
    · intro h
      show (if c.is_full_id (c.to_raw_id s) = true
              then strDrop (c.to_raw_id s) (strLen c.parent_pre)
              else c.to_raw_id s)
            = c.to_raw_id s
      rw [h]
      simp

/-- Witness for the amended Claim C2 at parent `"video_1"`: the still-raw id
`"1"` is idempotent under both normalizers, while the doubly-prefixed id
`"video_1/video_1/1"` strips to a still-prefixed form and is therefore moved
by a second `to_raw_id`. -/
theorem C2_normalizer_idempotence_witness :
    (video_cc.to_full_id (video_cc.to_full_id "1") = video_cc.to_full_id "1"
      ∧ video_cc.to_raw_id (video_cc.to_raw_id "1") = video_cc.to_raw_id "1")
    ∧ ¬ video_cc.to_raw_id (video_cc.to_raw_id "video_1/video_1/1")
        = video_cc.to_raw_id "video_1/video_1/1" :=
  ⟨⟨(C2_normalizer_idempotence video_cc "1").1,
    (C2_normalizer_idempotence video_cc "1").2.mpr (by decide)⟩,
   fun h =>
     absurd ((C2_normalizer_idempotence video_cc "video_1/video_1/1").2.mp h)
       (by decide)⟩

/-! ## Claim C5 -/

/-- Claim C5: `sanitize` behaves exactly by case — configuration error with no
declared child types; with one argument, ambiguity error when several types
are declared and resolution to the only type otherwise; with two arguments,
invalid-type error for an undeclared first argument and resolution to it
otherwise; invalid-arguments error for any other count; and every successful
case returns the id normalized by `to_raw_id`. -/
theorem C5_sanitize_cases (c : ChildContainer) (args : List String) :
    (c.childtypes = [] → c.sanitize args = .error .no_childtypes)
    ∧ (¬ c.childtypes = [] → args.length = 1 → 1 < c.childtypes.length →
        c.sanitize args = .error .ambiguous)
    ∧ (∀ t, c.childtypes = [t] → args.length = 1 →
        c.sanitize args = .ok (t, c.to_raw_id (args.getD 0 "")))
    ∧ (¬ c.childtypes = [] → args.length = 2 → ¬ args.getD 0 "" ∈ c.childtypes →
        c.sanitize args = .error .invalid_childtype)
    ∧ (args.length = 2 → args.getD 0 "" ∈ c.childtypes →
        c.sanitize args = .ok (args.getD 0 "", c.to_raw_id (args.getD 1 "")))
    ∧ (¬ c.childtypes = [] → ¬ args.length = 1 → ¬ args.length = 2 →
        c.sanitize args = .error .invalid_args) := by
  refine ⟨?_, ?_, ?_, ?_, ?_, ?_⟩
  · intro h
    simp [ChildContainer.sanitize, h]
  · intro h0 h1 h2
    have hne0 : ¬ c.childtypes.length = 0 := by
      intro he
      exact h0 (List.length_eq_zero.mp he)
    have hne1 : ¬ c.childtypes.length = 1 := by omega
    simp [ChildContainer.sanitize, h1, hne0, hne1]
  · intro t ht h1
    simp [ChildContainer.sanitize, ChildContainer.get_only_childtype, ht, h1]
  · intro h0 h2 hmem
    have hne0 : ¬ c.childtypes.length = 0 := by
      intro he
      exact h0 (List.length_eq_zero.mp he)
    obtain ⟨a, b, rfl⟩ : ∃ a b, args = [a, b] := by
      rcases args with _ | ⟨a, _ | ⟨b, _ | ⟨x, t⟩⟩⟩ <;> simp at h2 ⊢
    simp only [List.getD_cons_zero] at hmem
    simp [ChildContainer.sanitize, ChildContainer.is_valid_childtype, hne0, hmem]
  · intro h2 hmem
    have hne0 : ¬ c.childtypes.length = 0 := by
      intro he
      rw [List.length_eq_zero.mp he] at hmem
      simp at hmem
    obtain ⟨a, b, rfl⟩ : ∃ a b, args = [a, b] := by
      rcases args with _ | ⟨a, _ | ⟨b, _ | ⟨x, t⟩⟩⟩ <;> simp at h2 ⊢
    simp only [List.getD_cons_zero] at hmem
    simp [ChildContainer.sanitize, ChildContainer.is_valid_childtype, hne0, hmem]
  · intro h0 h1 h2
    have hne0 : ¬ c.childtypes.length = 0 := by
      intro he
      exact h0 (List.length_eq_zero.mp he)
    simp [ChildContainer.sanitize, h1, h2, hne0]

/-- Witness for Claim C5: each branch of `sanitize` observed on concrete
containers and argument lists. -/
theorem C5_sanitize_cases_witness :
    pair_cc.sanitize ["1"] = .error .ambiguous
    ∧ video_cc.sanitize ["1"] = .ok ("Frame", video_cc.to_raw_id "1")
    ∧ pair_cc.sanitize ["Nope", "1"] = .error .invalid_childtype
    ∧ pair_cc.sanitize ["Frame", "1"] = .ok ("Frame", pair_cc.to_raw_id "1")
    ∧ pair_cc.sanitize [] = .error .invalid_args :=
  ⟨(C5_sanitize_cases pair_cc ["1"]).2.1 (by decide) (by decide) (by decide),
   (C5_sanitize_cases video_cc ["1"]).2.2.1 "Frame" (by decide) (by decide),
   (C5_sanitize_cases pair_cc ["Nope", "1"]).2.2.2.1 (by decide) (by decide) (by decide),
   (C5_sanitize_cases pair_cc ["Frame", "1"]).2.2.2.2.1 (by decide) (by decide),
   (C5_sanitize_cases pair_cc []).2.2.2.2.2 (by decide) (by decide) (by decide)⟩

/-! ## Shared resolution lemmas for registry operations -/

theorem sanitize_pair (c : ChildContainer) (t i : String) (ht : t ∈ c.childtypes) :
    c.sanitize [t, i] = .ok (t, c.to_raw_id i) := by
  have hne0 : ¬ c.childtypes.length = 0 := by
    intro he
    rw [List.length_eq_zero.mp he] at ht
    simp at ht
  simp [ChildContainer.sanitize, ChildContainer.is_valid_childtype, ht, hne0]

theorem sanitize_single (c : ChildContainer) (t i : String) (ht : c.childtypes = [t]) :
    c.sanitize [i] = .ok (t, c.to_raw_id i) := by
  simp [ChildContainer.sanitize, ChildContainer.get_only_childtype, ht]

theorem add_pair_eq {V : Type} (c : ChildContainer) (doc : MongoDoc V) (t i : String)
    (tbl : List (String × String)) (ht : t ∈ c.childtypes)
    (htbl : lookupA doc.children t = some tbl) :
    c.add doc [t, i] = .ok { doc with
      children := setA doc.children t
        (setA tbl (c.to_raw_id i) (c.to_full_id (c.to_raw_id i))) } := by
  unfold ChildContainer.add
  rw [sanitize_pair c t i ht]
  simp [ChildContainer.get_childtype_dict, htbl]

/-! ## Claim C1 -/

/-- Claim C1, counterexample: the backing document passed at construction is
NOT unchanged under registry operations.  `ChildContainer.__init__` stores
`self.childtype_dicts = mongo_doc['children']` without copying, so one `add`
writes the new address-table entry into the supplied document: starting from
an empty `Frame` table, `add("Frame", "1")` leaves the document with the entry
`"1" ↦ "video_1/1"`, a different document than the one supplied. -/
theorem C1_counterexample :
    video_cc.add video_doc ["Frame", "1"]
      = .ok { root := "r", items := [],
              children := [("Frame", [("1", "video_1/1")])] }
    ∧ ¬ ({ root := "r", items := [],
           children := [("Frame", [("1", "video_1/1")])] } : MongoDoc Nat)
        = video_doc := by
  constructor
  · rfl
  · decide

/-- Claim C1 (amended): registry tables and item metadata are shared with the
backing document rather than copied at construction.  A successful
two-argument `add` writes the raw-id → full-id entry into
`mongo_doc['children'][t]`, and a memory-store `set` writes `present = True`
into `mongo_doc['items'][k]`; each operation returns the supplied document
mutated exactly there. -/
theorem C1_backing_doc_write_through :
    (∀ (V : Type) (c : ChildContainer) (doc : MongoDoc V) (t i : String)
        (tbl : List (String × String)),
      t ∈ c.childtypes → lookupA doc.children t = some tbl →
      c.add doc [t, i] = .ok { doc with
        children := setA doc.children t
          (setA tbl (c.to_raw_id i) (c.to_full_id (c.to_raw_id i))) })
    ∧ (∀ (V : Type) (m : MemoryDict V) (doc : MongoDoc V) (k : String) (v : Option V),
      k ∈ m.keys →
      m.set doc k v = .ok ({ m with data := setA m.data k v },
        { doc with items := set_present doc.items k true })) := by
  constructor
  · intro V c doc t i tbl ht htbl
    exact add_pair_eq c doc t i tbl ht htbl
  · intro V m doc k v hk
    simp [MemoryDict.set, hk]

/-- Witness for the amended Claim C1: the registry write-through observed on a
concrete document and container. -/
theorem C1_backing_doc_write_through_witness :
    video_cc.add video_doc ["Frame", "1"]
      = .ok { video_doc with
          children := setA video_doc.children "Frame"
            (setA [] (video_cc.to_raw_id "1")
              (video_cc.to_full_id (video_cc.to_raw_id "1"))) } :=
  C1_backing_doc_write_through.1 Nat video_cc video_doc "Frame" "1" []
    (by decide) (by decide)

/-! ## Claim C8 -/

/-- The document produced by `add("Frame", "video_1/video_1/1")` on
`video_doc`: the doubly-prefixed id loses one prefix, and the stored full id
equals the stored raw id. -/
def dbl_doc : MongoDoc Nat :=
  { root := "r", items := [], children := [("Frame", [("video_1/1", "video_1/1")])] }

/-- Claim C8, counterexample: for `i = "video_1/video_1/1"` the pair returned
by `add(Frame, i)` then `get(Frame, i)` is `(Frame, "video_1/1")`, which is
not `(Frame, parent_id + "/" + to_raw_id(i))` — that would be
`(Frame, "video_1/video_1/1")`. -/
theorem C8_counterexample :
    video_cc.add video_doc ["Frame", "video_1/video_1/1"] = .ok dbl_doc
    ∧ video_cc.get dbl_doc ["Frame", "video_1/video_1/1"]
        = .ok ("Frame", "video_1/1")
    ∧ ¬ ("video_1/1" : String)
        = strCat (strCat video_cc.parent_id id_joiner)
            (video_cc.to_raw_id "video_1/video_1/1") := by
  refine ⟨rfl, rfl, ?_⟩
  decide

/-- Claim C8 (amended): after `add(t, i)`, `get(t, i)` returns
`(t, to_full_id(to_raw_id i))`.  When `to_raw_id i` does not itself begin with
the parent prefix this equals `(t, parent_id + "/" + to_raw_id i)`, and when
`t` is the only declared child type the one-argument forms `add(i)`/`get(i)`
behave identically. -/
theorem C8_registry_round_trip {V : Type} (c : ChildContainer) (doc doc1 : MongoDoc V)
    (t i : String) (tbl : List (String × String))
    (ht : t ∈ c.childtypes) (htbl : lookupA doc.children t = some tbl)
    (hadd : c.add doc [t, i] = .ok doc1) :
    c.get doc1 [t, i] = .ok (t, c.to_full_id (c.to_raw_id i))
    ∧ (c.is_full_id (c.to_raw_id i) = false →
        c.get doc1 [t, i] = .ok (t, strCat (strCat c.parent_id id_joiner) (c.to_raw_id i)))
    ∧ (c.childtypes = [t] →
        c.add doc [i] = .ok doc1
        ∧ c.get doc1 [i] = .ok (t, c.to_full_id (c.to_raw_id i))) := by
  rw [add_pair_eq c doc t i tbl ht htbl] at hadd
  have hdoc1 : doc1 = { doc with
      children := setA doc.children t
        (setA tbl (c.to_raw_id i) (c.to_full_id (c.to_raw_id i))) } := by
    injection hadd with h
    exact h.symm
  subst hdoc1
  have hget : c.get { doc with
      children := setA doc.children t
        (setA tbl (c.to_raw_id i) (c.to_full_id (c.to_raw_id i))) } [t, i]
      = .ok (t, c.to_full_id (c.to_raw_id i)) := by
    unfold ChildContainer.get
    rw [sanitize_pair c t i ht]
    simp [ChildContainer.get_childtype_dict, lookupA_setA]
  refine ⟨hget, ?_, ?_⟩
  · intro hraw
    have hfull : c.to_full_id (c.to_raw_id i)
        = strCat (strCat c.parent_id id_joiner) (c.to_raw_id i) := by
      unfold ChildContainer.to_full_id ChildContainer.is_raw_id
      simp [hraw, ChildContainer.parent_pre]
    rw [hget, hfull]
  · intro honly
    constructor
    · unfold ChildContainer.add
      rw [sanitize_single c t i honly]
      simp [ChildContainer.get_childtype_dict, htbl]
    · unfold ChildContainer.get
      rw [sanitize_single c t i honly]
      simp [ChildContainer.get_childtype_dict, lookupA_setA]

/-- Witness for the amended Claim C8 on a genuinely raw id. -/
def frame_doc1 : MongoDoc Nat :=
  { root := "r", items := [], children := [("Frame", [("1", "video_1/1")])] }

/-- Witness for the amended Claim C8: concrete round trip through `add` and
`get` for the raw id `"1"`, in both the two-argument and one-argument forms. -/
theorem C8_registry_round_trip_witness :
    video_cc.get frame_doc1 ["Frame", "1"]
        = .ok ("Frame", video_cc.to_full_id (video_cc.to_raw_id "1"))
    ∧ video_cc.get frame_doc1 ["Frame", "1"]
        = .ok ("Frame", strCat (strCat video_cc.parent_id id_joiner) (video_cc.to_raw_id "1"))
    ∧ video_cc.add video_doc ["1"] = .ok frame_doc1
    ∧ video_cc.get frame_doc1 ["1"]
        = .ok ("Frame", video_cc.to_full_id (video_cc.to_raw_id "1")) :=
  ⟨(C8_registry_round_trip video_cc video_doc frame_doc1 "Frame" "1" []
      (by decide) (by decide) (by rfl)).1,
   (C8_registry_round_trip video_cc video_doc frame_doc1 "Frame" "1" []
      (by decide) (by decide) (by rfl)).2.1 (by decide),
   ((C8_registry_round_trip video_cc video_doc frame_doc1 "Frame" "1" []
      (by decide) (by decide) (by rfl)).2.2 (by decide)).1,
   ((C8_registry_round_trip video_cc video_doc frame_doc1 "Frame" "1" []
      (by decide) (by decide) (by rfl)).2.2 (by decide)).2⟩

/-! ## Claim C9 -/

/-- Claim C9: registry `get` fails with the lookup (`KeyError`) error exactly
when the resolved raw id is absent from the resolved child type's address
table, and succeeds — returning the stored full id — for every raw id present
in that table, whether seeded at construction or added later. -/
theorem C9_registry_lookup {V : Type} (c : ChildContainer) (doc : MongoDoc V)
    (t i : String) (tbl : List (String × String))
    (ht : t ∈ c.childtypes) (htbl : lookupA doc.children t = some tbl) :
    (c.get doc [t, i] = .error (.key_error (c.to_raw_id i))
      ↔ lookupA tbl (c.to_raw_id i) = none)
    ∧ (∀ full, lookupA tbl (c.to_raw_id i) = some full →
        c.get doc [t, i] = .ok (t, full)) := by
  unfold ChildContainer.get
  rw [sanitize_pair c t i ht]
  simp only [ChildContainer.get_childtype_dict, htbl]
  constructor
  · cases hfound : lookupA tbl (c.to_raw_id i) with
    | none => simp
    | some full => simp
  · intro full hfound
    rw [hfound]

/-- A document whose `Frame` table was seeded with one child. -/
def seeded_doc : MongoDoc Nat :=
  { root := "r", items := [], children := [("Frame", [("7", "video_1/7")])] }

/-- Witness for Claim C9: `get` succeeds on the seeded raw id `"7"` and fails
with the lookup error on the never-added raw id `"42"`. -/
theorem C9_registry_lookup_witness :
    video_cc.get seeded_doc ["Frame", "7"] = .ok ("Frame", "video_1/7")
    ∧ video_cc.get seeded_doc ["Frame", "42"]
        = .error (.key_error (video_cc.to_raw_id "42")) :=
  ⟨(C9_registry_lookup video_cc seeded_doc "Frame" "7" [("7", "video_1/7")]
      (by decide) (by decide)).2 "video_1/7" (by decide),
   ((C9_registry_lookup video_cc seeded_doc "Frame" "42" [("7", "video_1/7")]
      (by decide) (by decide)).1).mpr (by decide)⟩

/-! ## Claim C10 -/

/-- Claim C10: memory-mode round trip — for a declared memory-mode key and any
non-sentinel value (`some v`), `set(k, v)` immediately followed by `get(k)`
returns that value. -/
theorem C10_memory_round_trip {V : Type} (m : MemoryDict V) (doc : MongoDoc V)
    (k : String) (v : V) (hk : k ∈ m.keys)
    (m1 : MemoryDict V) (doc1 : MongoDoc V)
    (hset : m.set doc k (some v) = .ok (m1, doc1)) :
    m1.get k = .ok (some v) := by
  unfold MemoryDict.set at hset
  rw [if_pos hk] at hset
  simp only [Except.ok.injEq, Prod.mk.injEq] at hset
  obtain ⟨h1, h2⟩ := hset
  subst h1
  unfold MemoryDict.get
  rw [if_pos hk, lookupA_setA, if_pos rfl]

/-- A concrete one-key memory store and its backing document. -/
def mem_m : MemoryDict Nat := { keys := ["size"], data := [("size", none)] }

/-- Backing document for the concrete memory-store witnesses. -/
def mem_doc : MongoDoc Nat :=
  { root := "r", items := [("size", { data := none, present := none })], children := [] }

/-- Witness for Claim C10 at key `"size"` and value `5`. -/
theorem C10_memory_round_trip_witness :
    MemoryDict.get { keys := ["size"], data := [("size", some 5)] } "size" = .ok (some 5) :=
  C10_memory_round_trip mem_m mem_doc "size" 5 (by decide)
    { keys := ["size"], data := [("size", some 5)] }
    { root := "r", items := [("size", { data := none, present := some true })], children := [] }
    (by rfl)

/-! ## Claim C7 -/

/-- Claim C7: for a declared memory-mode key, `delete(k)` then `get(k)` yields
the absence sentinel, and the store state after `delete(k)` is observationally
identical — under `get`, `item_present`, `present_items` and `absent_items` —
to the state after `set(k, None)`; moreover presence of a memory-mode item
equals "the last-set value is not the sentinel". -/
theorem C7_memory_delete_equiv {V : Type} (m : MemoryDict V) (doc : MongoDoc V)
    (k : String) (hk : k ∈ m.keys)
    (m1 m2 : MemoryDict V) (doc1 doc2 : MongoDoc V)
    (hdel : m.delete doc k = .ok (m1, doc1))
    (hset : m.set doc k none = .ok (m2, doc2)) :
    m1.get k = .ok none
    ∧ (∀ j, m1.get j = m2.get j)
    ∧ (∀ j, m1.item_present j = m2.item_present j)
    ∧ (m1.present_items doc1).1 = (m2.present_items doc2).1
    ∧ (m1.absent_items doc1).1 = (m2.absent_items doc2).1
    ∧ (∀ (v : Option V) (m3 : MemoryDict V) (doc3 : MongoDoc V),
        m.set doc k v = .ok (m3, doc3) → m3.item_present k = v.isSome) := by
  unfold MemoryDict.delete at hdel
  rw [if_pos hk] at hdel
  simp only [Except.ok.injEq, Prod.mk.injEq] at hdel
  obtain ⟨hm1, hd1⟩ := hdel
  unfold MemoryDict.set at hset
  rw [if_pos hk] at hset
  simp only [Except.ok.injEq, Prod.mk.injEq] at hset
  obtain ⟨hm2, hd2⟩ := hset
  subst hm1
  subst hd1
  subst hm2
  subst hd2
  refine ⟨?_, fun j => rfl, fun j => rfl, ?_, ?_, ?_⟩
  · unfold MemoryDict.get
    rw [if_pos hk, lookupA_setA, if_pos rfl]
  · rw [present_items_fst, present_items_fst]
    apply List.filter_congr
    intro j hj
    have hsame : (lookupA (set_present doc.items k false) j).isSome
        = (lookupA (set_present doc.items k true) j).isSome := by
      rw [lookupA_set_present, lookupA_set_present]
      by_cases hjk : j = k
      · simp [hjk]
      · simp [hjk]
    show ((lookupA (set_present doc.items k false) j).isSome
          && MemoryDict.item_present { m with data := setA m.data k none } j)
        = ((lookupA (set_present doc.items k true) j).isSome
          && MemoryDict.item_present { m with data := setA m.data k none } j)
    rw [hsame]
  · unfold MemoryDict.absent_items
    simp only
    apply List.filter_congr
    intro j hj
    have hpres : (MemoryDict.present_items
          { m with data := setA m.data k none }
          { doc with items := set_present doc.items k false }).1
        = (MemoryDict.present_items
          { m with data := setA m.data k none }
          { doc with items := set_present doc.items k true }).1 := by
      rw [present_items_fst, present_items_fst]
      apply List.filter_congr
      intro j' hj'
      have hsame : (lookupA (set_present doc.items k false) j').isSome
          = (lookupA (set_present doc.items k true) j').isSome := by
        rw [lookupA_set_present, lookupA_set_present]
        by_cases hjk : j' = k
        · simp [hjk]
        · simp [hjk]
      show ((lookupA (set_present doc.items k false) j').isSome
            && MemoryDict.item_present { m with data := setA m.data k none } j')
          = ((lookupA (set_present doc.items k true) j').isSome
            && MemoryDict.item_present { m with data := setA m.data k none } j')
      rw [hsame]
    rw [hpres]
  · intro v m3 doc3 hset3
    unfold MemoryDict.set at hset3
    rw [if_pos hk] at hset3
    simp only [Except.ok.injEq, Prod.mk.injEq] at hset3
    obtain ⟨hm3, _⟩ := hset3
    subst hm3
    unfold MemoryDict.item_present
    rw [lookupA_setA, if_pos rfl]
    cases v <;> rfl

/-- A two-key memory store used by the Claim C7 witness. -/
def mem2_m : MemoryDict Nat :=
  { keys := ["a", "size"], data := [("a", some 1), ("size", some 2)] }

/-- Backing document for the two-key memory store. -/
def mem2_doc : MongoDoc Nat :=
  { root := "r",
    items := [("a", { data := some 1, present := none }),
              ("size", { data := some 2, present := none })],
    children := [] }

/-- The store and document after `delete("size")` on the two-key instance. -/
def mem2_m_del : MemoryDict Nat :=
  { keys := ["a", "size"], data := [("a", some 1), ("size", none)] }

/-- The document after the aliased `present := False` write of the delete. -/
def mem2_doc_del : MongoDoc Nat :=
  { root := "r",
    items := [("a", { data := some 1, present := none }),
              ("size", { data := some 2, present := some false })],
    children := [] }

/-- The document after the aliased `present := True` write of `set(k, None)`. -/
def mem2_doc_set : MongoDoc Nat :=
  { root := "r",
    items := [("a", { data := some 1, present := none }),
              ("size", { data := some 2, present := some true })],
    children := [] }

/-- Witness for Claim C7 on the two-key store at key `"size"`. -/
theorem C7_memory_delete_equiv_witness :
    MemoryDict.get mem2_m_del "size" = .ok none
    ∧ MemoryDict.get mem2_m_del "a" = MemoryDict.get mem2_m_del "a"
    ∧ MemoryDict.item_present mem2_m_del "size" = MemoryDict.item_present mem2_m_del "size"
    ∧ (MemoryDict.present_items mem2_m_del mem2_doc_del).1
        = (MemoryDict.present_items mem2_m_del mem2_doc_set).1
    ∧ (MemoryDict.absent_items mem2_m_del mem2_doc_del).1
        = (MemoryDict.absent_items mem2_m_del mem2_doc_set).1
    ∧ MemoryDict.item_present mem2_m_del "size" = Option.isSome (none : Option Nat) :=
  ⟨(C7_memory_delete_equiv mem2_m mem2_doc "size" (by decide)
      mem2_m_del mem2_m_del mem2_doc_del mem2_doc_set (by rfl) (by rfl)).1,
   (C7_memory_delete_equiv mem2_m mem2_doc "size" (by decide)
      mem2_m_del mem2_m_del mem2_doc_del mem2_doc_set (by rfl) (by rfl)).2.1 "a",
   (C7_memory_delete_equiv mem2_m mem2_doc "size" (by decide)
      mem2_m_del mem2_m_del mem2_doc_del mem2_doc_set (by rfl) (by rfl)).2.2.1 "size",
   (C7_memory_delete_equiv mem2_m mem2_doc "size" (by decide)
      mem2_m_del mem2_m_del mem2_doc_del mem2_doc_set (by rfl) (by rfl)).2.2.2.1,
   (C7_memory_delete_equiv mem2_m mem2_doc "size" (by decide)
      mem2_m_del mem2_m_del mem2_doc_del mem2_doc_set (by rfl) (by rfl)).2.2.2.2.1,
   (C7_memory_delete_equiv mem2_m mem2_doc "size" (by decide)
      mem2_m_del mem2_m_del mem2_doc_del mem2_doc_set (by rfl) (by rfl)).2.2.2.2.2
     none mem2_m_del mem2_doc_set (by rfl)⟩

/-! ## Claim C6 -/

/-- Claim C6: the disk read hook is a lazy cache-aside load.  For a declared
disk key with an empty cache slot and an existing backing file, `get` invokes
the key's deserialize function on the key's path, caches the result
(`load_item`) and returns it; with a cached value it returns it without
reloading (the store is unchanged); with an empty slot and no file it returns
the absence sentinel (store unchanged). -/
theorem C6_disk_get {V : Type} (d : DiskDict V) (fs : Fs) (k : String)
    (hk : k ∈ d.keys) :
    (lookupA d.data k = some none → d.item_present fs k = true →
      d.get fs k =
        .ok (((lookupA d.load_funcs k).getD (fun _ => none)) (d.path_of k), d.load_item k))
    ∧ (∀ v : V, lookupA d.data k = some (some v) →
        d.get fs k = .ok (some v, d))
    ∧ (lookupA d.data k = some none → d.item_present fs k = false →
        d.get fs k = .ok (none, d)) := by
  refine ⟨?_, ?_, ?_⟩
  · intro hcache hpres
    simp [DiskDict.get, hk, hcache, hpres, DiskDict.load_item, lookupA_setA]
  · intro v hcache
    simp [DiskDict.get, hk, hcache]
  · intro hcache hpres
    simp [DiskDict.get, hk, hcache, hpres]

/-- A concrete one-key disk store with an uncached slot. -/
def disk_d : DiskDict Nat :=
  { keys := ["thumb"]
    load_funcs := [("thumb", fun _ => some 9)]
    paths := [("thumb", "r/t.jpg")]
    data := [("thumb", none)] }

/-- A filesystem on which only `"r/t.jpg"` exists. -/
def disk_fs : Fs := fun q => decide (q = "r/t.jpg")

/-- Witness for Claim C6: the lazy load observed on the concrete store. -/
theorem C6_disk_get_witness :
    disk_d.get disk_fs "thumb" =
      .ok (((lookupA disk_d.load_funcs "thumb").getD (fun _ => none)) (disk_d.path_of "thumb"),
        disk_d.load_item "thumb") :=
  (C6_disk_get disk_d disk_fs "thumb" (by decide)).1 (by decide) (by decide)

/-! ## Claim C3 -/

/-- Claim C3: deleting a declared disk key whose backing file exists succeeds,
after which the item is not present and the backing file no longer exists; an
immediate second delete fails with the propagated filesystem error from
`os.remove`. -/
theorem C3_disk_delete {V : Type} (d : DiskDict V) (doc : MongoDoc V) (fs : Fs)
    (k : String) (hk : k ∈ d.keys) (hcache : (lookupA d.data k).isSome = true)
    (hfile : fs (d.path_of k) = true) :
    (d.delete doc fs k).err = none
    ∧ ((d.delete doc fs k).dict.item_present (d.delete doc fs k).fs k = false)
    ∧ ((d.delete doc fs k).fs (d.path_of k) = false)
    ∧ (((d.delete doc fs k).dict.delete (d.delete doc fs k).doc
          (d.delete doc fs k).fs k).err = some .fs_error) := by
  rcases hcv : lookupA d.data k with _ | cached
  · rw [hcv] at hcache
    simp at hcache
  have hdel : d.delete doc fs k =
      { err := none
        dict := { d with data := setA (eraseA d.data k) k none }
        doc := { doc with items := set_present doc.items k false }
        fs := fun q => if q = d.path_of k then false else fs q } := by
    unfold DiskDict.delete
    rw [if_pos hk, hcv]
    unfold os_remove os_path_exists
    rw [if_pos hfile]
  rw [hdel]
  refine ⟨rfl, ?_, ?_, ?_⟩
  · unfold DiskDict.item_present os_path_exists DiskDict.path_of
    simp
  · simp
  · unfold DiskDict.delete
    rw [if_pos hk]
    have hl : lookupA (setA (eraseA d.data k) k none) k = some none := by
      rw [lookupA_setA, if_pos rfl]
    rw [hl]
    have hpath : DiskDict.path_of { d with data := setA (eraseA d.data k) k none } k
        = d.path_of k := rfl
    unfold os_remove os_path_exists
    rw [hpath]
    rw [if_neg]
    simp

/-- A concrete disk store whose only key has a loaded cache slot. -/
def disk_d3 : DiskDict Nat :=
  { keys := ["thumb"]
    load_funcs := [("thumb", fun _ => some 9)]
    paths := [("thumb", "r/t.jpg")]
    data := [("thumb", some 9)] }

/-- Backing document for the disk-store witnesses. -/
def disk_doc : MongoDoc Nat :=
  { root := "r", items := [("thumb", { data := none, present := none })], children := [] }

/-- Witness for Claim C3: delete-then-delete on the concrete disk store. -/
theorem C3_disk_delete_witness :
    (disk_d3.delete disk_doc disk_fs "thumb").err = none
    ∧ ((disk_d3.delete disk_doc disk_fs "thumb").dict.item_present
        (disk_d3.delete disk_doc disk_fs "thumb").fs "thumb" = false)
    ∧ ((disk_d3.delete disk_doc disk_fs "thumb").fs (disk_d3.path_of "thumb") = false)
    ∧ (((disk_d3.delete disk_doc disk_fs "thumb").dict.delete
          (disk_d3.delete disk_doc disk_fs "thumb").doc
          (disk_d3.delete disk_doc disk_fs "thumb").fs "thumb").err = some .fs_error) :=
  C3_disk_delete disk_d3 disk_doc disk_fs "thumb" (by decide) (by decide) (by decide)

/-! ## Claim C4 -/

/-- Claim C4: when the filesystem remove step of a disk delete fails (missing
backing file), the cache entry has already been removed and is not restored,
and a subsequent `get` on the still-declared key fails with the internal
`KeyError` from the cache lookup rather than returning the absence
sentinel — disk delete is not atomic on error. -/
theorem C4_disk_delete_not_atomic {V : Type} (d : DiskDict V) (doc : MongoDoc V)
    (fs : Fs) (k : String) (hk : k ∈ d.keys)
    (hnodup : (d.data.map Prod.fst).Nodup)
    (hcache : (lookupA d.data k).isSome = true)
    (hfile : fs (d.path_of k) = false) :
    (d.delete doc fs k).err = some .fs_error
    ∧ lookupA (d.delete doc fs k).dict.data k = none
    ∧ (d.delete doc fs k).dict.get (d.delete doc fs k).fs k = .error (.key_error k) := by
  rcases hcv : lookupA d.data k with _ | cached
  · rw [hcv] at hcache
    simp at hcache
  have hdel : d.delete doc fs k =
      { err := some .fs_error
        dict := { d with data := eraseA d.data k }
        doc := { doc with items := set_present doc.items k false }
        fs := fs } := by
    unfold DiskDict.delete
    rw [if_pos hk, hcv]
    unfold os_remove os_path_exists
    rw [if_neg]
    simp [hfile]
  rw [hdel]
  have hgone : lookupA (eraseA d.data k) k = none := lookupA_eraseA_self d.data k hnodup
  refine ⟨rfl, hgone, ?_⟩
  unfold DiskDict.get
  rw [if_pos hk]
  rw [hgone]

/-- A disk store whose only key points at a file that does not exist. -/
def disk_d4 : DiskDict Nat :=
  { keys := ["thumb"]
    load_funcs := [("thumb", fun _ => some 9)]
    paths := [("thumb", "r/t.jpg")]
    data := [("thumb", some 9)] }

/-- A filesystem on which no path exists. -/
def empty_fs : Fs := fun _ => false

/-- Witness for Claim C4: the failed delete and subsequent `KeyError` get on
the concrete store. -/
theorem C4_disk_delete_not_atomic_witness :
    (disk_d4.delete disk_doc empty_fs "thumb").err = some .fs_error
    ∧ lookupA (disk_d4.delete disk_doc empty_fs "thumb").dict.data "thumb" = none
    ∧ (disk_d4.delete disk_doc empty_fs "thumb").dict.get
        (disk_d4.delete disk_doc empty_fs "thumb").fs "thumb" = .error (.key_error "thumb") :=
  C4_disk_delete_not_atomic disk_d4 disk_doc empty_fs "thumb"
    (by decide) (by decide) (by decide) (by decide)
